import Mathlib

/-
Shallow embedding of `crates/bevy_pbr/src/render/skin.rs`: the skinned-mesh
joint-matrix packing and double-buffering subsystem.

Matrices (`Mat4`) are abstracted as a type parameter `M`; the product
`joint.affine() * *bindpose` is abstracted as a binary operation `mul` and
`Mat4::ZERO` as a designated element `zero`.  Entities and asset ids are
`Nat`.  The world queries of the ECS are passed in as lists and lookup
functions: the claims under study are about the packing algorithm, which is
agnostic to the matrix arithmetic itself.
-/

namespace BevySkin

/-- Maximum number of joints supported for skinned meshes (`MAX_JOINTS`
in `skin.rs`). -/
def MAX_JOINTS : Nat := 256

/-- Size in bytes of a 4x4 matrix of 32-bit floats, `size_of::<Mat4>()`. -/
def MAT4_SIZE : Nat := 64

/-- Embedding of the `SkinIndex` component: the byte offset of the first
joint matrix of a skinned mesh inside the joint buffer. -/
structure SkinIndex where
  byte_offset : Nat
  deriving DecidableEq

/-- Embedding of `SkinIndex::new`: converts a start position counted in
matrices into a byte offset.  The Rust code casts `usize` to `u32`, hence
the reduction modulo 2 ^ 32. -/
def SkinIndex.new (start : Nat) : SkinIndex :=
  ⟨start * MAT4_SIZE % 2 ^ 32⟩

/-- Embedding of `SkinIndex::index`: the offset in matrix elements. -/
def SkinIndex.index (s : SkinIndex) : Nat :=
  s.byte_offset / MAT4_SIZE

/-- Embedding of the `SkinnedMesh` component: an asset id for the inverse
bindposes together with the ordered list of joint entity ids. -/
structure SkinnedMesh where
  inverse_bindposes : Nat
  joints : List Nat

/-- Embedding of the `SkinIndices` resource: the double-buffered map from
entity to `SkinIndex`.  The `MainEntityHashMap` is modelled as an
association list kept in insertion order. -/
structure SkinIndices where
  current : List (Nat × SkinIndex)
  prev : List (Nat × SkinIndex)

/-- Modelled from the spec: `RawBufferVec<Mat4>` lives in `bevy_render`,
whose source is not part of this excerpt.  Following the spec's Upload Step
contract, it is a growable matrix buffer usable both as CPU-writable
staging and GPU-bound resource: the CPU-side values, the capacity of the
backing GPU allocation (in elements), and the contents last transferred to
the GPU queue. -/
structure RawBufferVec (M : Type) where
  values : List M
  capacity : Nat
  gpu : List M

/-- Modelled from the spec: `RawBufferVec::reserve` (from `bevy_render`,
not in this excerpt) ensures the underlying GPU resource has capacity of at
least `size` elements, reallocating if necessary. -/
def RawBufferVec.reserve {M : Type} (b : RawBufferVec M) (size : Nat) :
    RawBufferVec M :=
  if b.capacity < size then { b with capacity := size } else b

/-- Modelled from the spec: `RawBufferVec::write_buffer` (from
`bevy_render`, not in this excerpt) reserves space for the values and
transfers the CPU-side buffer contents to the GPU queue. -/
def RawBufferVec.write_buffer {M : Type} (b : RawBufferVec M) :
    RawBufferVec M :=
  let r := b.reserve b.values.length
  { r with gpu := r.values }

/-- Embedding of the `SkinUniforms` resource: the double-buffered joint
matrix buffers. -/
structure SkinUniforms (M : Type) where
  current_buffer : RawBufferVec M
  prev_buffer : RawBufferVec M

/-- Embedding of `prepare_skins`: a no-op on an empty current buffer;
otherwise reserve capacity for the current values and write them to the
GPU queue.  `prev_buffer` is left untouched. -/
def prepare_skins {M : Type} (uniform : SkinUniforms M) : SkinUniforms M :=
  if uniform.current_buffer.values.isEmpty then uniform
  else
    let len := uniform.current_buffer.values.length
    let reserved := uniform.current_buffer.reserve len
    { uniform with current_buffer := reserved.write_buffer }

/-- Embedding of the relevant field of `wgpu::Limits`. -/
structure WgpuLimits where
  max_storage_buffers_per_shader_stage : Nat

/-- Embedding of `skins_use_uniform_buffers`.  The `static OnceLock<bool>`
is modelled by threading its state explicitly (`none` = not yet
initialised); the function returns the answer together with the new state
of the lock, mirroring `get_or_init`. -/
def skins_use_uniform_buffers (cell : Option Bool) (limits : WgpuLimits) :
    Bool × Option Bool :=
  match cell with
  | some b => (b, some b)
  | none =>
    (limits.max_storage_buffers_per_shader_stage == 0,
     some (limits.max_storage_buffers_per_shader_stage == 0))

/-- The matrices appended for one instance in `extract_skins`:
`joints.iter_many(&skin.joints)` skips joints whose `GlobalTransform`
fetch fails (hence `filterMap`), the result is zipped with the inverse
bindposes, truncated to `MAX_JOINTS` entries, and each pair is
multiplied. -/
def instanceMatrices {M : Type} (mul : M → M → M) (transforms : Nat → Option M)
    (bindposes : List M) (joints : List Nat) : List M :=
  (((joints.filterMap transforms).zip bindposes).take MAX_JOINTS).map
    fun p => mul p.1 p.2

/-- Insertion into the entity-keyed index map, with `HashMap::insert`
overwrite semantics on an association list. -/
def insertIndex (l : List (Nat × SkinIndex)) (k : Nat) (v : SkinIndex) :
    List (Nat × SkinIndex) :=
  if l.any fun p => p.1 == k then
    l.map fun p => if p.1 == k then (k, v) else p
  else l ++ [(k, v)]

/-- State of the per-entity loop inside `extract_skins`: the current buffer
values, the current index table being built, and `last_start`. -/
structure LoopState (M : Type) where
  buffer : List M
  indices : List (Nat × SkinIndex)
  last_start : Nat

/-- Closed form of the alignment loop
`while buffer.len() % 4 != 0 { buffer.push(Mat4::ZERO) }` in
`extract_skins`.  The lemma `padMod4_loop` below shows that this definition
satisfies that loop recurrence. -/
def padMod4 {M : Type} (zero : M) (l : List M) : List M :=
  l ++ List.replicate ((4 - l.length % 4) % 4) zero

/-- Closed form of the trailing padding loop
`while current_buffer.len() - last_start < MAX_JOINTS { push(Mat4::ZERO) }`
in `extract_skins`.  The lemma `padTail_loop` below shows that this
definition satisfies that loop recurrence. -/
def padTail {M : Type} (zero : M) (last_start : Nat) (l : List M) : List M :=
  l ++ List.replicate (last_start + MAX_JOINTS - l.length) zero

/-- The body of the per-entity loop of `extract_skins`, acting on the loop
state.  Mirrors lines 183-220 of `skin.rs`. -/
def processInstance {M : Type} (mul : M → M → M) (zero : M)
    (assets : Nat → Option (List M)) (transforms : Nat → Option M)
    (ufb : Bool) (st : LoopState M) (item : Nat × Bool × SkinnedMesh) :
    LoopState M :=
  if !item.2.1 then st
  else
    match assets item.2.2.inverse_bindposes with
    | none => st
    | some bindposes =>
      let start := st.buffer.length
      let target := start + min item.2.2.joints.length MAX_JOINTS
      let buffer :=
        st.buffer ++ instanceMatrices mul transforms bindposes item.2.2.joints
      if buffer.length ≠ target then
        { st with buffer := buffer.take start }
      else
        let last_start := max st.last_start start
        let buffer := if ufb then padMod4 zero buffer else buffer
        { buffer := buffer
          indices := insertIndex st.indices item.1 (SkinIndex.new start)
          last_start := last_start }

/-- The fold over the visible-instance query in `extract_skins`, starting
from the freshly cleared current buffer and index table. -/
def extractLoop {M : Type} (mul : M → M → M) (zero : M)
    (assets : Nat → Option (List M)) (transforms : Nat → Option M)
    (ufb : Bool) (query : List (Nat × Bool × SkinnedMesh)) : LoopState M :=
  query.foldl (processInstance mul zero assets transforms ufb) ⟨[], [], 0⟩

/-- Embedding of `extract_skins`: swap the current and previous buffers and
index maps, clear the new current ones, run the per-entity loop, and pad
the tail of the buffer.  The swap is `mem::swap` on whole values, so the
new `prev` buffer and table are exactly the old `current` ones. -/
def extract_skins {M : Type} (mul : M → M → M) (zero : M)
    (query : List (Nat × Bool × SkinnedMesh))
    (assets : Nat → Option (List M)) (transforms : Nat → Option M)
    (ufb : Bool) (skin_indices : SkinIndices) (uniform : SkinUniforms M) :
    SkinIndices × SkinUniforms M :=
  let st := extractLoop mul zero assets transforms ufb query
  ({ current := st.indices, prev := skin_indices.current },
   { current_buffer :=
       { uniform.prev_buffer with values := padTail zero st.last_start st.buffer },
     prev_buffer := uniform.current_buffer })

/-- Embedding of an entity as seen by `no_automatic_skin_batching`: whether
it has a `SkinnedMesh` component and whether it has `NoAutomaticBatching`. -/
structure BatchEntity where
  id : Nat
  has_skinned_mesh : Bool
  has_no_automatic_batching : Bool
  deriving DecidableEq

/-- Embedding of `no_automatic_skin_batching`: when the uniform-buffer
fallback is active, insert `NoAutomaticBatching` on every entity matched by
the query `(With<SkinnedMesh>, Without<NoAutomaticBatching>)`; otherwise
return early. -/
def no_automatic_skin_batching (ufb : Bool) (world : List BatchEntity) :
    List BatchEntity :=
  if !ufb then world
  else
    world.map fun e =>
      if e.has_skinned_mesh && !e.has_no_automatic_batching then
        { e with has_no_automatic_batching := true }
      else e

/-- One frame's extraction inputs, for iterated runs of `extract_skins`. -/
structure FrameInput (M : Type) where
  query : List (Nat × Bool × SkinnedMesh)
  assets : Nat → Option (List M)
  transforms : Nat → Option M

/-- The pair of resources `extract_skins` mutates. -/
structure RenderState (M : Type) where
  skin_indices : SkinIndices
  uniform : SkinUniforms M

/-- One frame of extraction acting on the render state. -/
def stepFrame {M : Type} (mul : M → M → M) (zero : M) (ufb : Bool)
    (s : RenderState M) (f : FrameInput M) : RenderState M :=
  let r := extract_skins mul zero f.query f.assets f.transforms ufb
    s.skin_indices s.uniform
  ⟨r.1, r.2⟩

/-- Iterated frames of extraction. -/
def runFrames {M : Type} (mul : M → M → M) (zero : M) (ufb : Bool)
    (s : RenderState M) (frames : List (FrameInput M)) : RenderState M :=
  frames.foldl (stepFrame mul zero ufb) s

/-- Results of a sequence of calls to `skins_use_uniform_buffers` threading
the `OnceLock` state, one call per element of the argument list. -/
def callChain (cell : Option Bool) : List WgpuLimits → List Bool
  | [] => []
  | l :: ls =>
    let r := skins_use_uniform_buffers cell l
    r.1 :: callChain r.2 ls

/-- Whether one query item commits a packed region in `extract_skins`:
the instance is visible, its inverse-bindpose asset resolves, and the
appended matrix count matches `min(joint_count, MAX_JOINTS)` (the
`buffer.len() != target` check passes).  This predicate depends only on
the query item, not on the loop state. -/
def commits {M : Type} (mul : M → M → M) (assets : Nat → Option (List M))
    (transforms : Nat → Option M) (item : Nat × Bool × SkinnedMesh) : Bool :=
  item.2.1 &&
    match assets item.2.2.inverse_bindposes with
    | none => false
    | some bindposes =>
      (instanceMatrices mul transforms bindposes item.2.2.joints).length
        == min item.2.2.joints.length MAX_JOINTS

/-- The closed-form `padMod4` satisfies the `while` loop recurrence of the
alignment padding in `extract_skins` (push one zero matrix while the length
is not a multiple of 4). -/
theorem padMod4_loop {M : Type} (zero : M) (l : List M) :
    padMod4 zero l =
      if l.length % 4 = 0 then l else padMod4 zero (l ++ [zero]) := by
  by_cases h : l.length % 4 = 0
  · simp [padMod4, h]
  · have hk : (4 - l.length % 4) % 4 = (4 - (l.length + 1) % 4) % 4 + 1 := by
      omega
    simp only [padMod4, if_neg h, List.length_append, List.length_singleton]
    rw [hk, List.replicate_succ]
    simp

/-- The closed-form `padTail` satisfies the `while` loop recurrence of the
trailing padding in `extract_skins` (push one zero matrix while fewer than
`MAX_JOINTS` matrices sit after `last_start`). -/
theorem padTail_loop {M : Type} (zero : M) (ls : Nat) (l : List M) :
    padTail zero ls l =
      if l.length - ls < MAX_JOINTS then padTail zero ls (l ++ [zero])
      else l := by
  by_cases h : l.length - ls < MAX_JOINTS
  · have hk : ls + MAX_JOINTS - l.length
        = (ls + MAX_JOINTS - (l.length + 1)) + 1 := by
      simp only [MAX_JOINTS] at h ⊢
      omega
    simp only [padTail, if_pos h, List.length_append, List.length_singleton]
    rw [hk, List.replicate_succ]
    simp
  · have hk : ls + MAX_JOINTS - l.length = 0 := by
      simp only [MAX_JOINTS] at h ⊢
      omega
    simp [padTail, if_neg h, hk]

/-- Length of the 4-alignment padding result. -/
theorem padMod4_length {M : Type} (zero : M) (l : List M) :
    (padMod4 zero l).length = l.length + (4 - l.length % 4) % 4 := by
  simp [padMod4]

/-- Length of the trailing padding result. -/
theorem padTail_length {M : Type} (zero : M) (ls : Nat) (l : List M) :
    (padTail zero ls l).length = l.length + (ls + MAX_JOINTS - l.length) := by
  simp [padTail]

/-- `filterMap` strictly shrinks a list containing an element sent to
`none`. -/
theorem length_filterMap_lt_of_none {α β : Type} (f : α → Option β) :
    ∀ (l : List α) (j : α), j ∈ l → f j = none →
      (l.filterMap f).length < l.length := by
  intro l
  induction l with
  | nil => intro j hj; cases hj
  | cons a l ih =>
    intro j hj hf
    cases hfa : f a with
    | none =>
      have hle := List.length_filterMap_le f l
      simp only [List.filterMap_cons, hfa, List.length_cons]
      omega
    | some b =>
      rcases List.mem_cons.mp hj with rfl | hmem
      · rw [hfa] at hf; cases hf
      · have := ih j hmem hf
        simp only [List.filterMap_cons, hfa, List.length_cons]
        omega

/-- When every element resolves, `filterMap` is a `map`. -/
theorem filterMap_eq_map_of_forall_some {α β : Type} (f : α → Option β)
    (g : α → β) : ∀ (l : List α), (∀ a ∈ l, f a = some (g a)) →
      l.filterMap f = l.map g := by
  intro l
  induction l with
  | nil => intro; rfl
  | cons a l ih =>
    intro h
    have ha := h a (List.mem_cons_self a l)
    simp only [List.filterMap_cons, ha, List.map_cons]
    rw [ih fun x hx => h x (List.mem_cons_of_mem a hx)]

/-- Length of the matrices appended for one instance. -/
theorem instanceMatrices_length {M : Type} (mul : M → M → M)
    (transforms : Nat → Option M) (bindposes : List M) (joints : List Nat) :
    (instanceMatrices mul transforms bindposes joints).length
      = min (min (joints.filterMap transforms).length bindposes.length)
          MAX_JOINTS := by
  simp [instanceMatrices]
  omega

/-- An invisible instance is skipped, leaving the loop state unchanged. -/
theorem processInstance_vis_false {M : Type} (mul : M → M → M) (zero : M)
    (assets : Nat → Option (List M)) (transforms : Nat → Option M)
    (ufb : Bool) (st : LoopState M) (item : Nat × Bool × SkinnedMesh)
    (h : item.2.1 = false) :
    processInstance mul zero assets transforms ufb st item = st := by
  simp [processInstance, h]

/-- An instance whose inverse-bindpose asset is not loaded is skipped. -/
theorem processInstance_asset_none {M : Type} (mul : M → M → M) (zero : M)
    (assets : Nat → Option (List M)) (transforms : Nat → Option M)
    (ufb : Bool) (st : LoopState M) (item : Nat × Bool × SkinnedMesh)
    (h : assets item.2.2.inverse_bindposes = none) :
    processInstance mul zero assets transforms ufb st item = st := by
  by_cases hv : item.2.1
  · simp [processInstance, hv, h]
  · simp [processInstance, Bool.not_eq_true _ ▸ hv]

/-- When the number of appended matrices differs from
`min(joint_count, MAX_JOINTS)`, the buffer is truncated back and the loop
state is exactly what it was before the instance. -/
theorem processInstance_mismatch {M : Type} (mul : M → M → M) (zero : M)
    (assets : Nat → Option (List M)) (transforms : Nat → Option M)
    (ufb : Bool) (st : LoopState M) (item : Nat × Bool × SkinnedMesh)
    (bindposes : List M)
    (hb : assets item.2.2.inverse_bindposes = some bindposes)
    (h : (instanceMatrices mul transforms bindposes item.2.2.joints).length
      ≠ min item.2.2.joints.length MAX_JOINTS) :
    processInstance mul zero assets transforms ufb st item = st := by
  by_cases hv : item.2.1
  · simp only [processInstance, hv, Bool.not_true, Bool.false_eq_true,
      if_false, hb]
    rw [if_pos]
    · have : (st.buffer
          ++ instanceMatrices mul transforms bindposes item.2.2.joints).take
            st.buffer.length = st.buffer :=
        List.take_left st.buffer _
      rw [this]
    · rw [List.length_append]
      omega
  · simp [processInstance, Bool.not_eq_true _ ▸ hv]

/-- When the appended matrix count matches `min(joint_count, MAX_JOINTS)`,
the instance commits: the buffer keeps the appended matrices (4-aligned in
uniform-buffer fallback mode), `last_start` is bumped, and an index entry
is inserted at the instance's start offset. -/
theorem processInstance_commit {M : Type} (mul : M → M → M) (zero : M)
    (assets : Nat → Option (List M)) (transforms : Nat → Option M)
    (ufb : Bool) (st : LoopState M) (item : Nat × Bool × SkinnedMesh)
    (bindposes : List M) (hv : item.2.1 = true)
    (hb : assets item.2.2.inverse_bindposes = some bindposes)
    (h : (instanceMatrices mul transforms bindposes item.2.2.joints).length
      = min item.2.2.joints.length MAX_JOINTS) :
    processInstance mul zero assets transforms ufb st item =
      { buffer :=
          if ufb then
            padMod4 zero
              (st.buffer
                ++ instanceMatrices mul transforms bindposes item.2.2.joints)
          else
            st.buffer
              ++ instanceMatrices mul transforms bindposes item.2.2.joints
        indices := insertIndex st.indices item.1
          (SkinIndex.new st.buffer.length)
        last_start := max st.last_start st.buffer.length } := by
  simp only [processInstance, hv, Bool.not_true, Bool.false_eq_true,
    if_false, hb]
  rw [if_neg]
  rw [List.length_append]
  omega

/-- The matrix-unit index recovered from a `SkinIndex` never exceeds the
start position it was built from (the `u32` cast can only shrink it). -/
theorem SkinIndex.new_index_le (start : Nat) :
    (SkinIndex.new start).index ≤ start := by
  have h32 : (2 : Nat) ^ 32 = 4294967296 := by norm_num
  simp only [SkinIndex.new, SkinIndex.index, MAT4_SIZE, h32]
  omega

/-- A `SkinIndex` built at a 4-aligned matrix start has a 256-aligned byte
offset. -/
theorem SkinIndex.new_byte_offset_mod (start : Nat) (h : start % 4 = 0) :
    (SkinIndex.new start).byte_offset % 256 = 0 := by
  have h32 : (2 : Nat) ^ 32 = 4294967296 := by norm_num
  simp only [SkinIndex.new, MAT4_SIZE, h32]
  omega

/-- A 256-aligned byte offset yields a 4-aligned matrix-unit index. -/
theorem SkinIndex.index_mod_four (s : SkinIndex)
    (h : s.byte_offset % 256 = 0) : s.index % 4 = 0 := by
  simp only [SkinIndex.index, MAT4_SIZE]
  omega

/-- A property preserved by `insertIndex` when it holds of the old entries
and of the inserted entry. -/
theorem insertIndex_forall {P : Nat × SkinIndex → Prop}
    (l : List (Nat × SkinIndex)) (k : Nat) (v : SkinIndex)
    (hl : ∀ p ∈ l, P p) (hv : P (k, v)) :
    ∀ p ∈ insertIndex l k v, P p := by
  intro p hp
  unfold insertIndex at hp
  by_cases hany : l.any fun p => p.1 == k
  · rw [if_pos hany] at hp
    rcases List.mem_map.mp hp with ⟨q, hq, rfl⟩
    split
    · exact hv
    · exact hl q hq
  · rw [if_neg hany] at hp
    rcases List.mem_append.mp hp with h | h
    · exact hl p h
    · obtain rfl := List.mem_singleton.mp h
      exact hv

/-- Invariant of one index-table entry relative to `last_start`: the entry's
matrix-unit index is at most `last_start`, and in uniform-buffer fallback
mode its byte offset is 256-aligned and its matrix index 4-aligned. -/
def EntryInv (ufb : Bool) (ls : Nat) (p : Nat × SkinIndex) : Prop :=
  p.2.index ≤ ls ∧
    (ufb = true → p.2.byte_offset % 256 = 0 ∧ p.2.index % 4 = 0)

/-- Invariant of the loop state of `extract_skins`: `last_start` never
exceeds the buffer length, in uniform-buffer fallback mode the buffer
length is always a multiple of 4 matrices, and every index entry satisfies
`EntryInv`. -/
def StInv {M : Type} (ufb : Bool) (st : LoopState M) : Prop :=
  st.last_start ≤ st.buffer.length ∧
    (ufb = true → st.buffer.length % 4 = 0) ∧
    ∀ p ∈ st.indices, EntryInv ufb st.last_start p

/-- The loop body of `extract_skins` preserves the loop-state invariant. -/
theorem processInstance_inv {M : Type} (mul : M → M → M) (zero : M)
    (assets : Nat → Option (List M)) (transforms : Nat → Option M)
    (ufb : Bool) (st : LoopState M) (item : Nat × Bool × SkinnedMesh)
    (h : StInv ufb st) :
    StInv ufb (processInstance mul zero assets transforms ufb st item) := by
  obtain ⟨h1, h2, h3⟩ := h
  by_cases hv : item.2.1
  · cases hb : assets item.2.2.inverse_bindposes with
    | none => rw [processInstance_asset_none mul zero assets transforms ufb st item hb]; exact ⟨h1, h2, h3⟩
    | some bindposes =>
      by_cases hlen :
          (instanceMatrices mul transforms bindposes item.2.2.joints).length
            = min item.2.2.joints.length MAX_JOINTS
      · rw [processInstance_commit mul zero assets transforms ufb st item
          bindposes hv hb hlen]
        have hstart : st.buffer.length
            ≤ (st.buffer
              ++ instanceMatrices mul transforms bindposes
                item.2.2.joints).length := by
          rw [List.length_append]; omega
        refine ⟨?_, ?_, ?_⟩
        · cases ufb with
          | false =>
            simp only [if_neg (Bool.false_ne_true)]
            omega
          | true =>
            simp only [if_pos rfl, if_true]
            rw [padMod4_length]
            omega
        · intro hu
          subst hu
          simp only [if_pos rfl, if_true]
          rw [padMod4_length]
          omega
        · apply insertIndex_forall
          · intro p hp
            obtain ⟨hp1, hp2⟩ := h3 p hp
            exact ⟨le_trans hp1 (le_max_left _ _), hp2⟩
          · constructor
            · exact le_trans (SkinIndex.new_index_le st.buffer.length)
                (le_max_right _ _)
            · intro hu
              have hs4 : st.buffer.length % 4 = 0 := h2 hu
              have hb256 := SkinIndex.new_byte_offset_mod st.buffer.length hs4
              exact ⟨hb256, SkinIndex.index_mod_four _ hb256⟩
      · rw [processInstance_mismatch mul zero assets transforms ufb st item
          bindposes hb hlen]
        exact ⟨h1, h2, h3⟩
  · rw [processInstance_vis_false mul zero assets transforms ufb st item
      (Bool.not_eq_true _ ▸ hv)]
    exact ⟨h1, h2, h3⟩

/-- The whole query fold of `extract_skins` preserves the loop-state
invariant. -/
theorem foldl_processInstance_inv {M : Type} (mul : M → M → M) (zero : M)
    (assets : Nat → Option (List M)) (transforms : Nat → Option M)
    (ufb : Bool) :
    ∀ (query : List (Nat × Bool × SkinnedMesh)) (st : LoopState M),
      StInv ufb st →
      StInv ufb
        (query.foldl (processInstance mul zero assets transforms ufb) st) := by
  intro query
  induction query with
  | nil => intro st h; exact h
  | cons item rest ih =>
    intro st h
    exact ih _ (processInstance_inv mul zero assets transforms ufb st item h)

/-- The loop-state invariant holds of the result of `extractLoop`. -/
theorem extractLoop_inv {M : Type} (mul : M → M → M) (zero : M)
    (assets : Nat → Option (List M)) (transforms : Nat → Option M)
    (ufb : Bool) (query : List (Nat × Bool × SkinnedMesh)) :
    StInv ufb (extractLoop mul zero assets transforms ufb query) := by
  apply foldl_processInstance_inv
  refine ⟨Nat.le_refl 0, fun _ => rfl, ?_⟩
  intro p hp
  cases hp

/-- An empty current buffer makes `prepare_skins` a no-op. -/
theorem prepare_skins_empty {M : Type} (u : SkinUniforms M)
    (h : u.current_buffer.values = []) : prepare_skins u = u := by
  unfold prepare_skins
  rw [if_pos]
  rw [h]
  rfl

/-- A nonempty current buffer is written to the GPU queue by
`prepare_skins`. -/
theorem prepare_skins_gpu {M : Type} (u : SkinUniforms M)
    (h : u.current_buffer.values ≠ []) :
    (prepare_skins u).current_buffer.gpu = u.current_buffer.values := by
  unfold prepare_skins
  rw [if_neg]
  · simp only [RawBufferVec.write_buffer, RawBufferVec.reserve]
    split_ifs <;> rfl
  · intro hh
    exact h (List.isEmpty_iff.mp hh)

/-- After `prepare_skins` on a nonempty current buffer, the GPU capacity
covers the buffer length. -/
theorem prepare_skins_capacity {M : Type} (u : SkinUniforms M)
    (h : u.current_buffer.values ≠ []) :
    u.current_buffer.values.length
      ≤ (prepare_skins u).current_buffer.capacity := by
  unfold prepare_skins
  rw [if_neg]
  · simp only [RawBufferVec.write_buffer, RawBufferVec.reserve]
    split_ifs
    all_goals try simp
    all_goals omega
  · intro hh
    exact h (List.isEmpty_iff.mp hh)

/-- `prepare_skins` never touches the previous-frame buffer. -/
theorem prepare_skins_prev {M : Type} (u : SkinUniforms M) :
    (prepare_skins u).prev_buffer = u.prev_buffer := by
  unfold prepare_skins
  split <;> rfl

/-- C7: `prepare_skins` is a no-op when `current_buffer` is empty;
otherwise it ensures GPU capacity of at least `current_buffer.length` and
transfers the current buffer contents to the GPU queue; in every case
`prev_buffer` is never written. -/
theorem prepare_skins_contract {M : Type} (u : SkinUniforms M) :
    (u.current_buffer.values = [] → prepare_skins u = u)
    ∧ (u.current_buffer.values ≠ [] →
        u.current_buffer.values.length
          ≤ (prepare_skins u).current_buffer.capacity
        ∧ (prepare_skins u).current_buffer.gpu = u.current_buffer.values)
    ∧ (prepare_skins u).prev_buffer = u.prev_buffer :=
  ⟨prepare_skins_empty u,
   fun h => ⟨prepare_skins_capacity u h, prepare_skins_gpu u h⟩,
   prepare_skins_prev u⟩

/-- Witness for C7 at a concrete nonempty buffer. -/
theorem prepare_skins_contract_witness :
    (([3, 4] : List Nat) ≠ []
      ∧ (prepare_skins (⟨⟨[3, 4], 0, []⟩, ⟨[9], 7, [9]⟩⟩ : SkinUniforms Nat)).current_buffer.gpu
        = [3, 4])
    ∧ (prepare_skins (⟨⟨[3, 4], 0, []⟩, ⟨[9], 7, [9]⟩⟩ : SkinUniforms Nat)).prev_buffer
      = ⟨[9], 7, [9]⟩ :=
  ⟨⟨by decide,
    ((prepare_skins_contract (⟨⟨[3, 4], 0, []⟩, ⟨[9], 7, [9]⟩⟩ : SkinUniforms Nat)).2.1
      (by decide)).2⟩,
   (prepare_skins_contract (⟨⟨[3, 4], 0, []⟩, ⟨[9], 7, [9]⟩⟩ : SkinUniforms Nat)).2.2⟩

/-- After the `OnceLock` holds a value, every call returns it and keeps the
lock unchanged. -/
theorem callChain_some (b : Bool) :
    ∀ ls : List WgpuLimits,
      callChain (some b) ls = List.replicate ls.length b := by
  intro ls
  induction ls with
  | nil => rfl
  | cons l ls ih =>
    simp [callChain, skins_use_uniform_buffers, ih, List.replicate_succ]

/-- C8: the first call to `skins_use_uniform_buffers` computes the boolean
from the device limits and caches it; every subsequent call, with the same
or any other limits argument, returns that same cached boolean. -/
theorem skins_use_uniform_buffers_idempotent (l0 : WgpuLimits)
    (ls : List WgpuLimits) :
    callChain none (l0 :: ls)
      = List.replicate (ls.length + 1)
          (l0.max_storage_buffers_per_shader_stage == 0) := by
  simp [callChain, skins_use_uniform_buffers, callChain_some,
    List.replicate_succ]

/-- C9: when the uniform-buffer fallback is active, every entity that has a
skin binding and no `NoAutomaticBatching` marker receives the marker (with
its identity unchanged); when the fallback is not active, the gate modifies
no entity. -/
theorem no_automatic_skin_batching_gate (ufb : Bool)
    (world : List BatchEntity) :
    (ufb = false → no_automatic_skin_batching ufb world = world)
    ∧ (ufb = true →
        (no_automatic_skin_batching ufb world).length = world.length
        ∧ ∀ i (h : i < world.length)
            (h2 : i < (no_automatic_skin_batching ufb world).length),
            ((world[i].has_skinned_mesh = true →
              world[i].has_no_automatic_batching = false →
              (no_automatic_skin_batching ufb world)[i].has_no_automatic_batching
                = true)
            ∧ (no_automatic_skin_batching ufb world)[i].id = world[i].id)) := by
  constructor
  · intro h
    subst h
    simp [no_automatic_skin_batching]
  · intro h
    subst h
    refine ⟨by simp [no_automatic_skin_batching], ?_⟩
    intro i h h2
    simp only [no_automatic_skin_batching, Bool.not_true, Bool.false_eq_true,
      if_false, List.getElem_map]
    constructor
    · intro hs hn
      simp [hs, hn]
    · by_cases hc :
          (world[i].has_skinned_mesh && !world[i].has_no_automatic_batching)
            = true <;> simp [hc]

/-- Witness for C9 at a concrete world in fallback mode. -/
theorem no_automatic_skin_batching_gate_witness :
    ((no_automatic_skin_batching true [⟨4, true, false⟩])[0].has_no_automatic_batching
        = true)
    ∧ (no_automatic_skin_batching true [⟨4, true, false⟩])[0].id = 4 := by
  have h := (no_automatic_skin_batching_gate true [⟨4, true, false⟩]).2 rfl
  refine ⟨(h.2 0 (by decide) ?_).1 rfl rfl, (h.2 0 (by decide) ?_).2⟩
  · rw [h.1]
    decide
  · rw [h.1]
    decide

/-- C3: after `N` successive runs of `extract_skins`, the `prev` index
table and the `prev` buffer contents are exactly what the `current` index
table and `current` buffer were at the end of run `N - 1`. -/
theorem extract_skins_double_buffer {M : Type} (mul : M → M → M) (zero : M)
    (ufb : Bool) (s : RenderState M) (frames : List (FrameInput M))
    (n : Nat) (hn : n ≠ 0) (hlen : n ≤ frames.length) :
    (runFrames mul zero ufb s (frames.take n)).skin_indices.prev
      = (runFrames mul zero ufb s (frames.take (n - 1))).skin_indices.current
    ∧ (runFrames mul zero ufb s (frames.take n)).uniform.prev_buffer.values
      = (runFrames mul zero ufb s
          (frames.take (n - 1))).uniform.current_buffer.values := by
  obtain ⟨m, rfl⟩ : ∃ m, n = m + 1 := ⟨n - 1, by omega⟩
  have hm : m < frames.length := by omega
  have htake : frames.take (m + 1) = frames.take m ++ [frames[m]] := by
    rw [List.take_succ, List.getElem?_eq_getElem hm]
    rfl
  have hsub : m + 1 - 1 = m := by omega
  rw [htake, hsub]
  unfold runFrames
  rw [List.foldl_append]
  constructor <;> rfl

/-- An empty frame input, for concrete runs. -/
def exFrame : FrameInput Nat := ⟨[], fun _ => none, fun _ => none⟩

/-- A fresh render state, for concrete runs. -/
def exState : RenderState Nat := ⟨⟨[], []⟩, ⟨⟨[], 0, []⟩, ⟨[], 0, []⟩⟩⟩

/-- Witness for C3 at one concrete frame. -/
theorem extract_skins_double_buffer_witness :
    (runFrames (fun a _ => a) 0 false exState
        ([exFrame].take 1)).skin_indices.prev
      = (runFrames (fun a _ => a) 0 false exState
          ([exFrame].take 0)).skin_indices.current
    ∧ (runFrames (fun a _ => a) 0 false exState
        ([exFrame].take 1)).uniform.prev_buffer.values
      = (runFrames (fun a _ => a) 0 false exState
          ([exFrame].take 0)).uniform.current_buffer.values :=
  extract_skins_double_buffer (fun a _ => a) 0 false exState [exFrame] 1
    (by decide) (by decide)

/-- A query every item of which is skipped (invisible, unresolved asset, or
failed length check) leaves the loop state unchanged. -/
theorem foldl_skip {M : Type} (mul : M → M → M) (zero : M)
    (assets : Nat → Option (List M)) (transforms : Nat → Option M)
    (ufb : Bool) :
    ∀ (query : List (Nat × Bool × SkinnedMesh)) (st : LoopState M),
      (∀ item ∈ query, item.2.1 = false ∨
        ∀ bp, assets item.2.2.inverse_bindposes = some bp →
          (instanceMatrices mul transforms bp item.2.2.joints).length
            ≠ min item.2.2.joints.length MAX_JOINTS) →
      query.foldl (processInstance mul zero assets transforms ufb) st
        = st := by
  intro query
  induction query with
  | nil => intro st h; rfl
  | cons item rest ih =>
    intro st h
    have hstep : processInstance mul zero assets transforms ufb st item
        = st := by
      rcases h item (List.mem_cons_self item rest) with hv | hrest
      · exact processInstance_vis_false mul zero assets transforms ufb st
          item hv
      · cases hb : assets item.2.2.inverse_bindposes with
        | none =>
          exact processInstance_asset_none mul zero assets transforms ufb st
            item hb
        | some bp =>
          exact processInstance_mismatch mul zero assets transforms ufb st
            item bp hb (hrest bp hb)
    rw [List.foldl_cons, hstep]
    exact ih st fun x hx => h x (List.mem_cons_of_mem item hx)

/-- C5: when no instance packs successfully (none visible, or assets
unresolved, or all length checks fail), the current buffer after
`extract_skins` is exactly `MAX_JOINTS` zero matrices, it is nonempty, and
`prepare_skins` consequently uploads it to the GPU queue. -/
theorem extract_skins_empty_scene {M : Type} (mul : M → M → M) (zero : M)
    (query : List (Nat × Bool × SkinnedMesh))
    (assets : Nat → Option (List M)) (transforms : Nat → Option M)
    (ufb : Bool) (si : SkinIndices) (u : SkinUniforms M)
    (h : ∀ item ∈ query, item.2.1 = false ∨
      ∀ bp, assets item.2.2.inverse_bindposes = some bp →
        (instanceMatrices mul transforms bp item.2.2.joints).length
          ≠ min item.2.2.joints.length MAX_JOINTS) :
    (extract_skins mul zero query assets transforms ufb si
        u).2.current_buffer.values = List.replicate MAX_JOINTS zero
    ∧ (extract_skins mul zero query assets transforms ufb si
        u).2.current_buffer.values ≠ []
    ∧ (prepare_skins (extract_skins mul zero query assets transforms ufb si
        u).2).current_buffer.gpu
      = (extract_skins mul zero query assets transforms ufb si
          u).2.current_buffer.values := by
  have hloop : extractLoop mul zero assets transforms ufb query
      = ⟨[], [], 0⟩ :=
    foldl_skip mul zero assets transforms ufb query ⟨[], [], 0⟩ h
  have hval : (extract_skins mul zero query assets transforms ufb si
      u).2.current_buffer.values = List.replicate MAX_JOINTS zero := by
    simp only [extract_skins, hloop, padTail]
    norm_num
  have hne : (extract_skins mul zero query assets transforms ufb si
      u).2.current_buffer.values ≠ [] := by
    rw [hval]
    intro hnil
    have hz := congrArg List.length hnil
    rw [List.length_replicate] at hz
    exact absurd hz (by simp [MAX_JOINTS])
  exact ⟨hval, hne, prepare_skins_gpu _ hne⟩

/-- A fresh pair of skin buffers, for concrete runs. -/
def exU : SkinUniforms Nat := ⟨⟨[], 0, []⟩, ⟨[], 0, []⟩⟩

/-- A fresh pair of index tables, for concrete runs. -/
def exSI : SkinIndices := ⟨[], []⟩

/-- Witness for C5 at a concrete empty query. -/
theorem extract_skins_empty_scene_witness :
    (extract_skins (fun a _ => a) (0 : Nat) [] (fun _ => none)
        (fun _ => none) false exSI exU).2.current_buffer.values
      = List.replicate MAX_JOINTS 0
    ∧ (extract_skins (fun a _ => a) (0 : Nat) [] (fun _ => none)
        (fun _ => none) false exSI exU).2.current_buffer.values ≠ []
    ∧ (prepare_skins (extract_skins (fun a _ => a) (0 : Nat) []
        (fun _ => none) (fun _ => none) false exSI
        exU).2).current_buffer.gpu
      = (extract_skins (fun a _ => a) (0 : Nat) [] (fun _ => none)
          (fun _ => none) false exSI exU).2.current_buffer.values :=
  extract_skins_empty_scene (fun a _ => a) 0 [] (fun _ => none)
    (fun _ => none) false exSI exU (by simp)

/-- After the trailing pad of `extract_skins`, every recorded instance has
at least `MAX_JOINTS` matrices between its start index and the end of the
buffer. -/
theorem extract_skins_tail_guarantee {M : Type} (mul : M → M → M) (zero : M)
    (query : List (Nat × Bool × SkinnedMesh))
    (assets : Nat → Option (List M)) (transforms : Nat → Option M)
    (ufb : Bool) (si : SkinIndices) (u : SkinUniforms M) :
    ∀ p ∈ (extract_skins mul zero query assets transforms ufb si
        u).1.current,
      MAX_JOINTS ≤ (extract_skins mul zero query assets transforms ufb si
          u).2.current_buffer.values.length - p.2.index := by
  intro p hp
  obtain ⟨h1, h2, h3⟩ := extractLoop_inv mul zero assets transforms ufb query
  have hp' : p ∈ (extractLoop mul zero assets transforms ufb query).indices :=
    hp
  have hple := (h3 p hp').1
  have hv : (extract_skins mul zero query assets transforms ufb si
      u).2.current_buffer.values
    = padTail zero (extractLoop mul zero assets transforms ufb
        query).last_start
        (extractLoop mul zero assets transforms ufb query).buffer := rfl
  rw [hv, padTail_length]
  simp only [MAX_JOINTS] at *
  omega

/-- A list of entries whose matrix indices are all 4-aligned has 4-aligned
consecutive differences. -/
theorem chain'_of_forall_mod (l : List (Nat × SkinIndex))
    (h : ∀ p ∈ l, p.2.index % 4 = 0) :
    List.Chain' (fun a b : Nat × SkinIndex => (b.2.index - a.2.index) % 4 = 0)
      l := by
  induction l with
  | nil => exact List.chain'_nil
  | cons a l ih =>
    cases l with
    | nil => simp
    | cons b t =>
      rw [List.chain'_cons]
      refine ⟨?_, ih fun p hp => h p (List.mem_cons_of_mem a hp)⟩
      have ha := h a (List.mem_cons_self _ _)
      have hb := h b (List.mem_cons_of_mem a (List.mem_cons_self _ _))
      omega

/-- C2: in uniform-buffer fallback mode, consecutive recorded instances
have start offsets (in matrix units) that differ by a multiple of 4, and
the final buffer length exceeds every recorded start offset — in
particular the last one — by at least `MAX_JOINTS` matrices. -/
theorem extract_skins_uniform_alignment {M : Type} (mul : M → M → M)
    (zero : M) (query : List (Nat × Bool × SkinnedMesh))
    (assets : Nat → Option (List M)) (transforms : Nat → Option M)
    (si : SkinIndices) (u : SkinUniforms M) :
    List.Chain' (fun a b : Nat × SkinIndex => (b.2.index - a.2.index) % 4 = 0)
      (extract_skins mul zero query assets transforms true si u).1.current
    ∧ ∀ p ∈ (extract_skins mul zero query assets transforms true si
        u).1.current,
        MAX_JOINTS ≤ (extract_skins mul zero query assets transforms true si
            u).2.current_buffer.values.length - p.2.index := by
  constructor
  · apply chain'_of_forall_mod
    intro p hp
    obtain ⟨h1, h2, h3⟩ := extractLoop_inv mul zero assets transforms true
      query
    exact ((h3 p hp).2 rfl).2
  · exact extract_skins_tail_guarantee mul zero query assets transforms true
      si u

/-- A single visible three-joint instance, for concrete runs. -/
def exQuery3 : List (Nat × Bool × SkinnedMesh) := [(5, true, ⟨0, [1, 2, 3]⟩)]

/-- Assets resolving asset id 0 to three bindposes, for concrete runs. -/
def exAssets3 : Nat → Option (List Nat) :=
  fun a => if a = 0 then some [10, 20, 30] else none

/-- Transforms resolving every joint entity, for concrete runs. -/
def exTransformsAll : Nat → Option Nat := fun e => some e

set_option maxRecDepth 10000 in
/-- Witness for C2 at a concrete packed instance in fallback mode. -/
theorem extract_skins_uniform_alignment_witness :
    MAX_JOINTS ≤ (extract_skins (fun a _ => a) 0 exQuery3 exAssets3
        exTransformsAll true exSI exU).2.current_buffer.values.length
      - (SkinIndex.new 0).index :=
  (extract_skins_uniform_alignment (fun a _ => a) 0 exQuery3 exAssets3
      exTransformsAll exSI exU).2 (5, SkinIndex.new 0) (by decide)

/-- C10: in uniform-buffer fallback mode, every `SkinIndex` inserted into
the current index table by `extract_skins` has a byte offset that is a
multiple of 256 bytes. -/
theorem extract_skins_byte_offsets_aligned {M : Type} (mul : M → M → M)
    (zero : M) (query : List (Nat × Bool × SkinnedMesh))
    (assets : Nat → Option (List M)) (transforms : Nat → Option M)
    (si : SkinIndices) (u : SkinUniforms M) :
    ∀ p ∈ (extract_skins mul zero query assets transforms true si
        u).1.current,
      p.2.byte_offset % 256 = 0 := by
  intro p hp
  obtain ⟨h1, h2, h3⟩ := extractLoop_inv mul zero assets transforms true query
  exact ((h3 p hp).2 rfl).1

set_option maxRecDepth 10000 in
/-- Witness for C10 at a concrete packed instance in fallback mode. -/
theorem extract_skins_byte_offsets_aligned_witness :
    (SkinIndex.new 0).byte_offset % 256 = 0 :=
  extract_skins_byte_offsets_aligned (fun a _ => a) 0 exQuery3 exAssets3
    exTransformsAll exSI exU (5, SkinIndex.new 0) (by decide)

/-- With storage buffers (no fallback), the loop appends exactly
`min(joint_count, MAX_JOINTS)` matrices per committing instance and nothing
else. -/
theorem foldl_storage_length {M : Type} (mul : M → M → M) (zero : M)
    (assets : Nat → Option (List M)) (transforms : Nat → Option M) :
    ∀ (query : List (Nat × Bool × SkinnedMesh)) (st : LoopState M),
      ((query.foldl (processInstance mul zero assets transforms false)
          st).buffer).length
        = st.buffer.length
          + ((query.filter (commits mul assets transforms)).map
              fun item => min item.2.2.joints.length MAX_JOINTS).sum := by
  intro query
  induction query with
  | nil => intro st; simp
  | cons item rest ih =>
    intro st
    rw [List.foldl_cons]
    by_cases hv : item.2.1
    · cases hb : assets item.2.2.inverse_bindposes with
      | none =>
        have hc : commits mul assets transforms item = false := by
          simp [commits, hb]
        rw [processInstance_asset_none mul zero assets transforms false st
          item hb, ih]
        simp [List.filter_cons, hc]
      | some bp =>
        by_cases hlen :
            (instanceMatrices mul transforms bp item.2.2.joints).length
              = min item.2.2.joints.length MAX_JOINTS
        · have hc : commits mul assets transforms item = true := by
            simp [commits, hv, hb, hlen]
          rw [processInstance_commit mul zero assets transforms false st
            item bp hv hb hlen, ih]
          simp only [Bool.false_eq_true, if_false, List.length_append,
            List.filter_cons, hc, if_pos, List.map_cons, List.sum_cons]
          omega
        · have hc : commits mul assets transforms item = false := by
            simp [commits, hb]
            intro
            exact hlen
          rw [processInstance_mismatch mul zero assets transforms false st
            item bp hb hlen, ih]
          simp [List.filter_cons, hc]
    · have hvf : item.2.1 = false := Bool.not_eq_true _ ▸ hv
      have hc : commits mul assets transforms item = false := by
        simp [commits, hvf]
      rw [processInstance_vis_false mul zero assets transforms false st item
        hvf, ih]
      simp [List.filter_cons, hc]

/-- C6: when storage buffers are supported (no fallback), no padding is
inserted between instances — the loop buffer length equals the sum over
committing instances of `min(joint_count, MAX_JOINTS)` — and the trailing
guarantee (final length minus each recorded start offset at least
`MAX_JOINTS`) still holds. -/
theorem extract_skins_storage_mode {M : Type} (mul : M → M → M) (zero : M)
    (query : List (Nat × Bool × SkinnedMesh))
    (assets : Nat → Option (List M)) (transforms : Nat → Option M)
    (si : SkinIndices) (u : SkinUniforms M) :
    (extractLoop mul zero assets transforms false query).buffer.length
      = ((query.filter (commits mul assets transforms)).map
          fun item => min item.2.2.joints.length MAX_JOINTS).sum
    ∧ ∀ p ∈ (extract_skins mul zero query assets transforms false si
        u).1.current,
        MAX_JOINTS ≤ (extract_skins mul zero query assets transforms false
            si u).2.current_buffer.values.length - p.2.index := by
  constructor
  · have := foldl_storage_length mul zero assets transforms query ⟨[], [], 0⟩
    simpa [extractLoop] using this
  · exact extract_skins_tail_guarantee mul zero query assets transforms
      false si u

set_option maxRecDepth 10000 in
/-- Witness for C6 at a concrete packed instance in storage-buffer mode. -/
theorem extract_skins_storage_mode_witness :
    ((extractLoop (fun a _ => a) (0 : Nat) exAssets3 exTransformsAll false
        exQuery3).buffer.length
      = ((exQuery3.filter
            (commits (fun a _ => a) exAssets3 exTransformsAll)).map
          fun item => min item.2.2.joints.length MAX_JOINTS).sum)
    ∧ MAX_JOINTS ≤ (extract_skins (fun a _ => a) 0 exQuery3 exAssets3
          exTransformsAll false exSI exU).2.current_buffer.values.length
        - (SkinIndex.new 0).index :=
  ⟨(extract_skins_storage_mode (fun a _ => a) 0 exQuery3 exAssets3
      exTransformsAll exSI exU).1,
   (extract_skins_storage_mode (fun a _ => a) 0 exQuery3 exAssets3
      exTransformsAll exSI exU).2 (5, SkinIndex.new 0) (by decide)⟩

/-- C1 (amended): for an instance whose bind-pose asset resolves and whose
joint count is at most `MAX_JOINTS`, if any single joint's transform lookup
fails, the loop body leaves the state exactly unchanged: the buffer is
truncated back to the instance's start, and no index entry and no
`last_start` update happen. -/
theorem processInstance_atomic {M : Type} (mul : M → M → M) (zero : M)
    (assets : Nat → Option (List M)) (transforms : Nat → Option M)
    (ufb : Bool) (st : LoopState M) (item : Nat × Bool × SkinnedMesh)
    (bindposes : List M)
    (hb : assets item.2.2.inverse_bindposes = some bindposes)
    (hcount : item.2.2.joints.length ≤ MAX_JOINTS)
    (j : Nat) (hj : j ∈ item.2.2.joints) (hfail : transforms j = none) :
    processInstance mul zero assets transforms ufb st item = st := by
  apply processInstance_mismatch mul zero assets transforms ufb st item
    bindposes hb
  rw [instanceMatrices_length]
  have hlt := length_filterMap_lt_of_none transforms item.2.2.joints j hj
    hfail
  simp only [MAX_JOINTS] at hcount ⊢
  omega

/-- Transforms failing exactly on joint entity 0, for concrete runs. -/
def exTransformsFail : Nat → Option Nat :=
  fun e => if e = 0 then none else some e

/-- Witness for C1 (amended) at a three-joint instance whose first joint
lookup fails. -/
theorem processInstance_atomic_witness :
    processInstance (fun a _ => a) 0 exAssets3 exTransformsFail false
      ⟨[], [], 0⟩ (9, true, ⟨0, [0, 1, 2]⟩) = ⟨[], [], 0⟩ :=
  processInstance_atomic (fun a _ => a) 0 exAssets3 exTransformsFail false
    ⟨[], [], 0⟩ (9, true, ⟨0, [0, 1, 2]⟩) [10, 20, 30] rfl (by decide) 0
    (by decide) rfl

/-- A 257-joint instance referencing joint entities 0 to 256, for concrete
runs. -/
def exSkin257 : SkinnedMesh := ⟨0, List.range 257⟩

/-- Assets resolving asset id 0 to 257 bindposes, for concrete runs. -/
def exAssets257 : Nat → Option (List Nat) :=
  fun a => if a = 0 then some (List.replicate 257 0) else none

set_option maxRecDepth 100000 in
/-- Counterexample to C1 as stated: a visible 257-joint instance whose
first joint lookup fails nevertheless passes the length check (because
`take MAX_JOINTS` hides the shortfall when the joint count exceeds
`MAX_JOINTS`), so `extract_skins` does create an index entry for it and
does leave its (misassigned) matrices in the buffer — the first buffer
entry is the matrix built from joint entity 1, not zero matrices. -/
theorem extract_skins_atomicity_counterexample :
    (0 ∈ exSkin257.joints ∧ exTransformsFail 0 = none)
    ∧ (extract_skins (fun a _ => a) 0 [(5, true, exSkin257)] exAssets257
        exTransformsFail false exSI exU).1.current = [(5, SkinIndex.new 0)]
    ∧ (extract_skins (fun a _ => a) 0 [(5, true, exSkin257)] exAssets257
        exTransformsFail false exSI
        exU).2.current_buffer.values.take 1 = [1] := by
  refine ⟨⟨?_, rfl⟩, ?_, ?_⟩
  · simp [exSkin257, List.mem_range]
  · decide
  · decide

/-- C4 (amended): for a visible instance with more than `MAX_JOINTS` joints
whose bind-pose asset resolves to at least `MAX_JOINTS` bindposes and all
of whose joint lookups succeed, exactly `MAX_JOINTS` matrices are appended
for it — the matrices of the first `MAX_JOINTS` joints, each paired with
its own bindpose — and the instance commits with an index entry at its
start offset. -/
theorem processInstance_truncates_to_max {M : Type} (mul : M → M → M)
    (zero : M) (assets : Nat → Option (List M))
    (transforms : Nat → Option M) (ufb : Bool) (st : LoopState M)
    (item : Nat × Bool × SkinnedMesh) (bindposes : List M) (f : Nat → M)
    (hv : item.2.1 = true)
    (hb : assets item.2.2.inverse_bindposes = some bindposes)
    (hcount : MAX_JOINTS < item.2.2.joints.length)
    (hbp : MAX_JOINTS ≤ bindposes.length)
    (hres : ∀ j ∈ item.2.2.joints, transforms j = some (f j)) :
    instanceMatrices mul transforms bindposes item.2.2.joints
      = (((item.2.2.joints.zip bindposes).take MAX_JOINTS).map
          fun p => mul (f p.1) p.2)
    ∧ (instanceMatrices mul transforms bindposes item.2.2.joints).length
      = MAX_JOINTS
    ∧ processInstance mul zero assets transforms ufb st item
      = { buffer :=
            if ufb then
              padMod4 zero (st.buffer
                ++ instanceMatrices mul transforms bindposes
                  item.2.2.joints)
            else
              st.buffer
                ++ instanceMatrices mul transforms bindposes item.2.2.joints
          indices := insertIndex st.indices item.1
            (SkinIndex.new st.buffer.length)
          last_start := max st.last_start st.buffer.length } := by
  have hmap : item.2.2.joints.filterMap transforms
      = item.2.2.joints.map f :=
    filterMap_eq_map_of_forall_some transforms f _ hres
  have heq : instanceMatrices mul transforms bindposes item.2.2.joints
      = (((item.2.2.joints.zip bindposes).take MAX_JOINTS).map
          fun p => mul (f p.1) p.2) := by
    rw [instanceMatrices, hmap, List.zip_map_left, ← List.map_take,
      List.map_map]
    rfl
  have hlen : (instanceMatrices mul transforms bindposes
      item.2.2.joints).length = MAX_JOINTS := by
    rw [instanceMatrices_length, hmap, List.length_map]
    simp only [MAX_JOINTS] at hcount hbp ⊢
    omega
  have hmin : min item.2.2.joints.length MAX_JOINTS = MAX_JOINTS := by
    simp only [MAX_JOINTS] at hcount ⊢
    omega
  refine ⟨heq, hlen, ?_⟩
  exact processInstance_commit mul zero assets transforms ufb st item
    bindposes hv hb (by rw [hlen, hmin])

set_option maxRecDepth 100000 in
/-- Witness for C4 (amended) at a concrete 257-joint instance all of whose
joints resolve. -/
theorem processInstance_truncates_to_max_witness :
    (instanceMatrices (fun a _ => a) exTransformsAll (List.replicate 257 0)
        exSkin257.joints).length = MAX_JOINTS :=
  (processInstance_truncates_to_max (fun a _ => a) 0 exAssets257
    exTransformsAll false ⟨[], [], 0⟩ (5, true, exSkin257)
    (List.replicate 257 0) (fun e => e) rfl rfl (by decide) (by decide)
    fun j hj => rfl).2.1

set_option maxRecDepth 100000 in
/-- Counterexample to C4 as stated: a 257-joint instance whose first
joint's lookup fails still packs successfully (the check passes), exactly
`MAX_JOINTS` matrices are appended and an index entry is created — but the
appended matrices are not the matrices of the first `MAX_JOINTS` joints:
the first appended matrix is built from joint entity 1 while the first
joint is entity 0, whose transform is unresolvable. -/
theorem extract_skins_truncation_counterexample :
    MAX_JOINTS < exSkin257.joints.length
    ∧ (processInstance (fun a _ => a) 0 exAssets257 exTransformsFail false
        ⟨[], [], 0⟩ (5, true, exSkin257)).buffer.length = MAX_JOINTS
    ∧ (processInstance (fun a _ => a) 0 exAssets257 exTransformsFail false
        ⟨[], [], 0⟩ (5, true, exSkin257)).indices = [(5, SkinIndex.new 0)]
    ∧ (processInstance (fun a _ => a) 0 exAssets257 exTransformsFail false
        ⟨[], [], 0⟩ (5, true, exSkin257)).buffer.take 1 = [1]
    ∧ exSkin257.joints.take 1 = [0]
    ∧ exTransformsFail 0 = none := by
  exact ⟨by decide, by decide, by decide, by decide, by decide, rfl⟩

end BevySkin
